import Mathlib

/-
  Verification development for the ADAS risk & routing engine
  (src/app.py, src/api_handlers.py).

  Part 1 embeds the Complexity Scoring Engine, `calculate_complexity`
  (src/app.py lines 120-153) and `get_solar_occlusion_hours`
  (src/app.py lines 155-165).

  Modelling conventions:
  - pandas row fields that may be missing or NaN are `Option` values
    (`pd.notna` is modelled by `Option.isSome`); Python numbers are `ℚ`.
  - `row.get("hinRank", 0)` followed by `pd.notna(rank)` means: absent key
    or NaN both yield a zero rank bonus, so an `Option ℚ` with `none ↦ 0`
    is exact.
  - the weather snapshot dict returned by `get_openweather_data`
    (src/api_handlers.py lines 111-117) always carries the five keys, so it
    is a structure; the `None` return is `Option.none`.
-/

namespace Adas

/-- A road-segment row as read by `calculate_complexity`: only the four
fields the function touches. -/
structure SegmentRow where
  hinHIN_Status : Option String
  hinRank : Option ℚ
  fld_FLD : Option String
  bearing : Option ℚ
deriving DecidableEq

/-- The weather snapshot dict built in `get_openweather_data`
(src/api_handlers.py lines 111-117). -/
structure WeatherSnapshot where
  temp : ℚ
  conditions : String
  visibility_meters : ℚ
  solar_altitude : ℚ
  solar_azimuth : ℚ
deriving DecidableEq

/-- The rank bonus of src/app.py line 125-126:
`rank = row.get("hinRank", 0); rank_score = min(20, (rank / 1000) * 20) if pd.notna(rank) else 0`. -/
def rank_score (row : SegmentRow) : ℚ :=
  match row.hinRank with
  | none => 0
  | some rank => min 20 (rank / 1000 * 20)

/-- The HIN-network block of src/app.py lines 124-127: if `hinHIN_Status`
is present add `10 + rank_score`, else add nothing. -/
def hinTerm (row : SegmentRow) : ℚ :=
  match row.hinHIN_Status with
  | none => 0
  | some _ => 10 + rank_score row

/-- The flood-risk block of src/app.py lines 130-134: in the flood zone,
+25 while raining, +10 otherwise (also +10 when no weather snapshot). -/
def floodTerm (row : SegmentRow) (weather : Option WeatherSnapshot) : ℚ :=
  if row.fld_FLD = some "FLOOD_AE/A" then
    match weather with
    | some w =>
      if w.conditions = "Rain" ∨ w.conditions = "Thunderstorm" ∨ w.conditions = "Drizzle"
      then 25 else 10
    | none => 10
  else 0

/-- The solar-glare block of src/app.py lines 137-147: evaluated only when
`bearing` is present and a weather snapshot exists; +20 when the sun is low
(`0 <= alt <= 15`) and `diff = abs(bearing - azi)` is `<= 15` or `>= 345`. -/
def glareTerm (row : SegmentRow) (weather : Option WeatherSnapshot) : ℚ :=
  match row.bearing, weather with
  | some b, some w =>
    if 0 ≤ w.solar_altitude ∧ w.solar_altitude ≤ 15 then
      if |b - w.solar_azimuth| ≤ 15 ∨ 345 ≤ |b - w.solar_azimuth| then 20 else 0
    else 0
  | _, _ => 0

/-- src/app.py lines 120-153: base score 20, plus the three independent
blocks (the traffic block is a documented no-op), finally `min(100, score)`.
Each block reads only the row and the weather, never the running score, so
the sequential `score += ...` statements are exactly this sum. -/
def calculate_complexity (row : SegmentRow) (weather : Option WeatherSnapshot) : ℚ :=
  min 100 (20 + hinTerm row + floodTerm row weather + glareTerm row weather)

/-- src/app.py lines 155-165. -/
def get_solar_occlusion_hours (bearing : Option ℚ) : String :=
  match bearing with
  | none => "Unknown"
  | some b =>
    if 60 ≤ b ∧ b ≤ 120 then "Sunrise (approx 6:30 AM - 8:30 AM)"
    else if 240 ≤ b ∧ b ≤ 300 then "Sunset (approx 5:30 PM - 7:30 PM)"
    else "No Issue (North/South)"

end Adas

/-
  Part 2 embeds the Route Synthesis Engine: the INITIALIZE ROUTE handler of
  src/app.py lines 293-386.

  Modelling conventions:
  - graph nodes are `ℕ`; the weighted graph is abstracted to the function
    `length u v` giving the length of the (minimum-length parallel) edge
    from `u` to `v`, which is what `ox.routing.route_to_gdf(..., weight="length")`
    sums over consecutive route nodes.
  - one body execution of the `while` loop at lines 335-355 either fails
    (the `try` at lines 343-355 raises: unreachable destination, or
    `route_to_gdf` rejecting the sub-path, all swallowed by
    `except Exception: pass`) or succeeds with a chosen destination
    `next_dest` and a shortest sub-path; `IterOutcome` records which,
    abstracting the random sample and the shortest-path library as an
    outcome sequence indexed by iteration number.
  - `loopIter G target oracle orig n` is the loop state after `n` executed
    iterations (absorbing: once the guard is false the state is frozen).
    The real unbounded `while` loop terminates exactly when some `n` makes
    the guard `loopGuard target (loopIter ...)` false.
-/

namespace Adas

/-- Graph node identifier. -/
abbrev Node := ℕ

/-- The projected road graph, abstracted to its edge-length function
(the `length` attribute summed by `ox.routing.route_to_gdf`). -/
structure RouteGraph where
  length : Node → Node → ℚ

/-- Sum of the edge lengths between consecutive nodes of a route, i.e.
`ox.routing.route_to_gdf(G_proj, path, weight="length")["length"].sum()`
(src/app.py lines 345-346 and 368-369). -/
def routeLength (G : RouteGraph) : List Node → ℚ
  | [] => 0
  | [_] => 0
  | a :: b :: rest => G.length a b + routeLength G (b :: rest)

/-- Spec-side reading of "the sum of consecutive-node edge weights along
the full path": pair each node with its successor and sum the weights. -/
def specPathWeight (G : RouteGraph) (p : List Node) : ℚ :=
  ((p.zip p.tail).map (fun uv => G.length uv.1 uv.2)).sum

/-- What one execution of the loop body at src/app.py lines 336-355 did:
either the `try` block raised (swallowed, no state change), or it succeeded
with the sampled farthest destination `next_dest` and the shortest sub-path
to it. -/
inductive IterOutcome where
  | fail
  | success (next_dest : Node) (sub_path : List Node)
deriving DecidableEq

/-- Loop state of src/app.py lines 329-333. -/
structure SynthState where
  path : List Node
  current : Node
  accumulated : ℚ
  waypoints : ℕ
deriving DecidableEq

/-- src/app.py lines 329-333: `path = [orig]; current_node = orig;
accumulated_length = 0; waypoints = 0`. -/
def initState (orig : Node) : SynthState :=
  { path := [orig], current := orig, accumulated := 0, waypoints := 0 }

/-- src/app.py line 333: `max_waypoints = 15`. -/
def maxWaypoints : ℕ := 15

/-- The `while` guard of src/app.py line 335:
`accumulated_length < (target_distance_m * 0.8) and waypoints < max_waypoints`. -/
abbrev loopGuard (target : ℚ) (st : SynthState) : Prop :=
  st.accumulated < target * (4/5) ∧ st.waypoints < maxWaypoints

/-- The loop body of src/app.py lines 336-355. On failure the `except`
swallows everything and nothing changes; on success (lines 348-352):
`path.extend(sub_path[1:]); accumulated_length += sub_len;
current_node = next_dest; waypoints += 1`, with
`sub_len = route_to_gdf(sub_path)["length"].sum()`. -/
def loopStep (G : RouteGraph) (st : SynthState) : IterOutcome → SynthState
  | .fail => st
  | .success next_dest sub_path =>
      { path := st.path ++ sub_path.tail
        current := next_dest
        accumulated := st.accumulated + routeLength G sub_path
        waypoints := st.waypoints + 1 }

/-- State after `n` executed iterations of the `while` loop of src/app.py
lines 335-355, absorbing once the guard is false; iteration `k` consumes
`oracle k`. -/
def loopIter (G : RouteGraph) (target : ℚ) (oracle : ℕ → IterOutcome) (orig : Node) :
    ℕ → SynthState
  | 0 => initState orig
  | n + 1 =>
      let st := loopIter G target oracle orig n
      if loopGuard target st then loopStep G st (oracle n) else st

/-- The closing leg, src/app.py lines 357-362: try the shortest path from
the final current node back to the depot and append all but its first node;
on failure leave the path open. `home = none` models the `except` case. -/
def closeLoop (st : SynthState) (home : Option (List Node)) : List Node :=
  match home with
  | some home_path => st.path ++ home_path.tail
  | none => st.path

/-- The manifest metrics dict of src/app.py lines 377-381: distance in
miles (`total_length_m * 0.000621371`), estimated minutes
(`total_length_m / 13.4 / 60`), and node count. -/
structure RouteMetrics where
  dist : ℚ
  time : ℚ
  nodes : ℕ
deriving DecidableEq

/-- src/app.py lines 357-381 after the loop has stopped (state
`loopIter ... fuel`): close the loop, map nodes to coordinates
(line 365), and compute the metrics from
`total_length_m = route_to_gdf(path)["length"].sum()` (lines 368-373). -/
def synthesizeRoute (G : RouteGraph) (nodeCoords : Node → ℚ × ℚ) (orig : Node) (target : ℚ)
    (oracle : ℕ → IterOutcome) (fuel : ℕ) (home : Option (List Node)) :
    List (ℚ × ℚ) × RouteMetrics :=
  let path := closeLoop (loopIter G target oracle orig fuel) home
  let total_length_m := routeLength G path
  (path.map nodeCoords,
    { dist := total_length_m * (621371 / 1000000000)
      time := total_length_m / (67/5) / 60
      nodes := path.length })

/-- Everything the `try` block needs once the graph download has succeeded;
a graph-construction failure (src/app.py lines 311-321 raising) is the
`Except.error` case of the attempt fed to `routeHandlerStep`. -/
structure SynthInput where
  G : RouteGraph
  nodeCoords : Node → ℚ × ℚ
  orig : Node
  target : ℚ
  oracle : ℕ → IterOutcome
  fuel : ℕ
  home : Option (List Node)

/-- The session-state slots `st.session_state.route_coords` and
`st.session_state.route_metrics` (src/app.py lines 277-279). -/
structure SessionState where
  route_coords : Option (List (ℚ × ℚ))
  route_metrics : Option RouteMetrics

/-- The INITIALIZE ROUTE handler, src/app.py lines 293-386: on success the
try block ends by storing the route and metrics into the session state
(lines 376-381); on any exception the handler only reports the error
(line 386) and the session state is left as it was. -/
def routeHandlerStep (sess : SessionState) (attempt : Except String SynthInput) : SessionState :=
  match attempt.map (fun i =>
      synthesizeRoute i.G i.nodeCoords i.orig i.target i.oracle i.fuel i.home) with
  | .ok (coords, m) => { route_coords := some coords, route_metrics := some m }
  | .error _ => sess

end Adas

/-
  Part 3: helper lemmas.
-/

namespace Adas

/-- The rank bonus is always capped at 20 by the `min`. -/
lemma rank_score_le_twenty (row : SegmentRow) : rank_score row ≤ 20 := by
  cases hx : row.hinRank with
  | none => simp [rank_score, hx]
  | some r => simp only [rank_score, hx]; exact min_le_left _ _

/-- With a non-negative rank (the data-model invariant) the rank bonus is
non-negative. -/
lemma rank_score_nonneg (row : SegmentRow) (h : ∀ r, row.hinRank = some r → 0 ≤ r) :
    0 ≤ rank_score row := by
  cases hx : row.hinRank with
  | none => simp [rank_score, hx]
  | some r =>
    have hr := h r hx
    simp only [rank_score, hx]
    exact le_min (by norm_num) (mul_nonneg (div_nonneg hr (by norm_num)) (by norm_num))

/-- With a non-negative rank the HIN block is non-negative. -/
lemma hinTerm_nonneg (row : SegmentRow) (h : ∀ r, row.hinRank = some r → 0 ≤ r) :
    0 ≤ hinTerm row := by
  cases hs : row.hinHIN_Status with
  | none => simp [hinTerm, hs]
  | some s =>
    have := rank_score_nonneg row h
    simp only [hinTerm, hs]
    linarith

/-- The flood block contributes exactly 0, 10 or 25. -/
lemma floodTerm_cases (row : SegmentRow) (w : Option WeatherSnapshot) :
    floodTerm row w = 0 ∨ floodTerm row w = 10 ∨ floodTerm row w = 25 := by
  rcases w with _ | ws <;> simp only [floodTerm] <;> split_ifs <;> norm_num

/-- The glare block contributes exactly 0 or 20. -/
lemma glareTerm_cases (row : SegmentRow) (w : Option WeatherSnapshot) :
    glareTerm row w = 0 ∨ glareTerm row w = 20 := by
  rcases hb : row.bearing with _ | b <;> rcases w with _ | ws <;>
    simp only [glareTerm, hb] <;> (try split_ifs) <;> norm_num

lemma floodTerm_nonneg (row : SegmentRow) (w : Option WeatherSnapshot) :
    0 ≤ floodTerm row w := by
  rcases floodTerm_cases row w with h | h | h <;> rw [h] <;> norm_num

lemma glareTerm_nonneg (row : SegmentRow) (w : Option WeatherSnapshot) :
    0 ≤ glareTerm row w := by
  rcases glareTerm_cases row w with h | h <;> rw [h] <;> norm_num

/-
  Part 4: claims about the Complexity Scoring Engine.
-/

/-- C1 counterexample: the claim quantifies over arbitrary `hinRank`
values, but `calculate_complexity` only clamps from above
(`min(100, score)`, src/app.py line 153); with `hinRank = -2000` the rank
bonus is `min(20, -40) = -40` and the returned score is `-10 < 0`. -/
theorem calculate_complexity_lower_clamp_fails :
    calculate_complexity ⟨some "HIN", some (-2000), none, none⟩ none < 0 := by
  simp [calculate_complexity, hinTerm, floodTerm, glareTerm, rank_score, min_def]
  norm_num

/-- C1 (amended): for every segment row whose `hinRank`, when present, is
non-negative (the data-model invariant), and every weather snapshot
(including none), `0 <= calculate_complexity <= 100`, and the rank bonus is
capped at 20 for arbitrarily large `hinRank`. -/
theorem calculate_complexity_range (row : SegmentRow) (weather : Option WeatherSnapshot)
    (h : ∀ r, row.hinRank = some r → 0 ≤ r) :
    0 ≤ calculate_complexity row weather ∧ calculate_complexity row weather ≤ 100 ∧
      rank_score row ≤ 20 := by
  refine ⟨?_, min_le_left _ _, rank_score_le_twenty row⟩
  have h1 := hinTerm_nonneg row h
  have h2 := floodTerm_nonneg row weather
  have h3 := glareTerm_nonneg row weather
  exact le_min (by norm_num) (by linarith)

/-- C1 witness: an absurdly large `hinRank = 1000000` with every bonus
active still gives a score in range (here 95) and a rank bonus of 20. -/
theorem calculate_complexity_range_witness :
    0 ≤ calculate_complexity ⟨some "HIN", some 1000000, some "FLOOD_AE/A", some 90⟩
        (some ⟨75, "Thunderstorm", 10000, 10, 95⟩) ∧
      calculate_complexity ⟨some "HIN", some 1000000, some "FLOOD_AE/A", some 90⟩
        (some ⟨75, "Thunderstorm", 10000, 10, 95⟩) ≤ 100 ∧
      rank_score ⟨some "HIN", some 1000000, some "FLOOD_AE/A", some 90⟩ ≤ 20 :=
  calculate_complexity_range _ _ (by
    intro r hr
    rw [show r = 1000000 from (Option.some.inj hr).symm]
    norm_num)

/-- C9 counterexample: the implicit lower bound 20 fails as well for a
negative `hinRank`: with `hinRank = -3000` the score is `-30 < 20`. -/
theorem calculate_complexity_base_floor_fails :
    calculate_complexity ⟨some "HIN", some (-3000), none, none⟩ none < 20 := by
  simp [calculate_complexity, hinTerm, floodTerm, glareTerm, rank_score, min_def]
  norm_num

/-- C9 (amended): for every segment row whose `hinRank`, when present, is
non-negative, and every weather snapshot (including none), the score is at
least the unconditional base 20, so the actual range is [20, 100]. -/
theorem calculate_complexity_ge_base (row : SegmentRow) (weather : Option WeatherSnapshot)
    (h : ∀ r, row.hinRank = some r → 0 ≤ r) :
    20 ≤ calculate_complexity row weather := by
  have h1 := hinTerm_nonneg row h
  have h2 := floodTerm_nonneg row weather
  have h3 := glareTerm_nonneg row weather
  exact le_min (by norm_num) (by linarith)

/-- C9 witness: a bare row (no attributes, no weather) scores exactly the
base 20, attaining the lower bound. -/
theorem calculate_complexity_ge_base_witness :
    20 ≤ calculate_complexity ⟨none, none, none, none⟩ none :=
  calculate_complexity_ge_base _ _ (by intro r hr; exact absurd hr (by simp))

/-- C7 counterexample: the score is not always an integer: with
`hinStatus` present and `hinRank = 25` the rank bonus is
`min(20, 25/50) = 1/2`, so the returned score is `61/2 = 30.5`. -/
theorem calculate_complexity_not_integral :
    calculate_complexity ⟨some "HIN", some 25, none, none⟩ none = 61/2 ∧
      ¬ ∃ n : ℤ, calculate_complexity ⟨some "HIN", some 25, none, none⟩ none = (n : ℚ) := by
  have hval : calculate_complexity ⟨some "HIN", some 25, none, none⟩ none = 61/2 := by
    simp [calculate_complexity, hinTerm, floodTerm, glareTerm, rank_score, min_def]
    norm_num
  refine ⟨hval, ?_⟩
  rintro ⟨n, hn⟩
  rw [hval] at hn
  have hden : ((61:ℚ)/2).den = 1 := by rw [hn]; exact Rat.den_intCast n
  norm_num at hden

/-- C7 (amended): the score is a rational, not always an integer; it is an
integer in [0, 100] whenever the rank bonus `rank_score` is a non-negative
whole number (in particular whenever `hinStatus` or `hinRank` is absent, or
`hinRank` is at least 1000, or a multiple of 50). -/
theorem calculate_complexity_integral (row : SegmentRow) (weather : Option WeatherSnapshot)
    (h : ∃ m : ℤ, rank_score row = (m : ℚ) ∧ 0 ≤ m) :
    ∃ n : ℤ, calculate_complexity row weather = (n : ℚ) ∧ 0 ≤ n ∧ n ≤ 100 := by
  obtain ⟨m, hm, hm0⟩ := h
  have hhin : ∃ a : ℤ, hinTerm row = (a : ℚ) ∧ 0 ≤ a := by
    cases hs : row.hinHIN_Status with
    | none => exact ⟨0, by simp [hinTerm, hs], le_refl 0⟩
    | some s =>
      refine ⟨10 + m, ?_, by omega⟩
      simp only [hinTerm, hs, hm]
      push_cast
      ring
  obtain ⟨a, ha, ha0⟩ := hhin
  have hfl : ∃ f : ℤ, floodTerm row weather = (f : ℚ) ∧ 0 ≤ f := by
    rcases floodTerm_cases row weather with hf | hf | hf
    · exact ⟨0, by rw [hf]; norm_num, by norm_num⟩
    · exact ⟨10, by rw [hf]; norm_num, by norm_num⟩
    · exact ⟨25, by rw [hf]; norm_num, by norm_num⟩
  obtain ⟨f, hf, hf0⟩ := hfl
  have hgl : ∃ g : ℤ, glareTerm row weather = (g : ℚ) ∧ 0 ≤ g := by
    rcases glareTerm_cases row weather with hg | hg
    · exact ⟨0, by rw [hg]; norm_num, by norm_num⟩
    · exact ⟨20, by rw [hg]; norm_num, by norm_num⟩
  obtain ⟨g, hg, hg0⟩ := hgl
  refine ⟨min 100 (20 + a + f + g), ?_, ?_, min_le_left _ _⟩
  · unfold calculate_complexity
    rw [ha, hf, hg]
    push_cast [Int.cast_min]
    norm_num
  · exact le_min (by norm_num) (by omega)

/-- C7 witness: `hinRank = 1000` caps the rank bonus at exactly 20 and the
score is the integer 50. -/
theorem calculate_complexity_integral_witness :
    ∃ n : ℤ, calculate_complexity ⟨some "HIN", some 1000, none, none⟩ none = (n : ℚ) ∧
      0 ≤ n ∧ n ≤ 100 :=
  calculate_complexity_integral _ _
    ⟨20, by simp [rank_score, min_def], by norm_num⟩

/-- C6: the solar-glare block contributes exactly 20 iff the bearing is
present, a weather snapshot exists, the solar altitude is in [0, 15], and
the bearing-azimuth difference is within the 15-degree cone (with the 345
wraparound); otherwise it contributes 0, and `calculate_complexity` adds
this block on top of the base, HIN and flood terms before clamping. -/
theorem glare_bonus_iff (row : SegmentRow) (weather : Option WeatherSnapshot) :
    (glareTerm row weather = 20 ↔
      ∃ b w, row.bearing = some b ∧ weather = some w ∧
        0 ≤ w.solar_altitude ∧ w.solar_altitude ≤ 15 ∧
        (|b - w.solar_azimuth| ≤ 15 ∨ 345 ≤ |b - w.solar_azimuth|)) ∧
    (glareTerm row weather = 20 ∨ glareTerm row weather = 0) ∧
    calculate_complexity row weather
      = min 100 (20 + hinTerm row + floodTerm row weather + glareTerm row weather) := by
  refine ⟨?_, (glareTerm_cases row weather).symm, rfl⟩
  rcases hb : row.bearing with _ | b <;> rcases weather with _ | ws <;>
    simp only [glareTerm, hb]
  · simp
  · simp
  · simp
  · split_ifs with h1 h2
    · simp only [Option.some.injEq]
      constructor
      · intro _
        exact ⟨b, ws, rfl, rfl, h1.1, h1.2, h2⟩
      · intro _; trivial
    · constructor
      · intro h20; norm_num at h20
      · rintro ⟨b2, w2, hb2, hw2, _, _, hdiff⟩
        rw [← Option.some.inj hb2, ← Option.some.inj hw2] at hdiff
        exact absurd hdiff h2
    · constructor
      · intro h20; norm_num at h20
      · rintro ⟨b2, w2, hb2, hw2, halt1, halt2, _⟩
        rw [← Option.some.inj hw2] at halt1 halt2
        exact (h1 ⟨halt1, halt2⟩).elim

/-
  Part 5: lemmas and claims about the Route Synthesis Engine.
-/

/-- Unfolding of one loop iteration. -/
lemma loopIter_succ (G : RouteGraph) (target : ℚ) (oracle : ℕ → IterOutcome) (orig : Node)
    (n : ℕ) :
    loopIter G target oracle orig (n + 1) =
      if loopGuard target (loopIter G target oracle orig n)
      then loopStep G (loopIter G target oracle orig n) (oracle n)
      else loopIter G target oracle orig n := rfl

/-- With an all-failing outcome sequence the loop state never changes:
`except Exception: pass` advances nothing, and in particular `waypoints`
stays 0. -/
lemma loopIter_fail_const (G : RouteGraph) (target : ℚ) (orig : Node) :
    ∀ n, loopIter G target (fun _ => IterOutcome.fail) orig n = initState orig := by
  intro n
  induction n with
  | zero => rfl
  | succ k ih =>
    rw [loopIter_succ, ih]
    split <;> rfl

/-- Once the guard is false, the state is frozen. -/
lemma loopIter_frozen (G : RouteGraph) (target : ℚ) (oracle : ℕ → IterOutcome) (orig : Node)
    (n : ℕ) (h : ¬ loopGuard target (loopIter G target oracle orig n)) :
    loopIter G target oracle orig (n + 1) = loopIter G target oracle orig n := by
  rw [loopIter_succ, if_neg h]

/-- The waypoint counter never exceeds `maxWaypoints`: it starts at 0, only
a successful iteration increments it, and the guard requires
`waypoints < max_waypoints` before the body runs. -/
lemma loopIter_waypoints_le (G : RouteGraph) (target : ℚ) (oracle : ℕ → IterOutcome)
    (orig : Node) : ∀ n, (loopIter G target oracle orig n).waypoints ≤ maxWaypoints := by
  intro n
  induction n with
  | zero => simp [loopIter, initState]
  | succ k ih =>
    rw [loopIter_succ]
    split
    · rename_i hg
      cases ho : oracle k with
      | fail => simpa [loopStep] using ih
      | success d p => simp only [loopStep]; omega
    · exact ih

/-- Under an all-successful outcome sequence, after `n` iterations either
the counter equals `n` or the loop has already exited. -/
lemma loopIter_waypoints_eq_or_exit (G : RouteGraph) (target : ℚ) (oracle : ℕ → IterOutcome)
    (orig : Node) (hsucc : ∀ k, oracle k ≠ IterOutcome.fail) :
    ∀ n, (loopIter G target oracle orig n).waypoints = n ∨
      ¬ loopGuard target (loopIter G target oracle orig n) := by
  intro n
  induction n with
  | zero => left; rfl
  | succ k ih =>
    by_cases hg : loopGuard target (loopIter G target oracle orig k)
    · rcases ih with hw | hx
      · left
        rw [loopIter_succ, if_pos hg]
        cases ho : oracle k with
        | fail => exact absurd ho (hsucc k)
        | success d p => simp only [loopStep]; omega
      · exact absurd hg hx
    · right
      rw [loopIter_frozen G target oracle orig k hg]
      exact hg

/-- The assembled path is never empty and always starts at the origin:
it starts as `[orig]` and both the loop body and the closing leg only
append (`path.extend(...)`). -/
lemma loopIter_path_head (G : RouteGraph) (target : ℚ) (oracle : ℕ → IterOutcome)
    (orig : Node) : ∀ n, (loopIter G target oracle orig n).path ≠ [] ∧
      (loopIter G target oracle orig n).path.head? = some orig := by
  intro n
  induction n with
  | zero => exact ⟨by simp [loopIter, initState], rfl⟩
  | succ k ih =>
    rw [loopIter_succ]
    split
    · cases ho : oracle k with
      | fail => exact ih
      | success d p =>
        simp only [loopStep]
        refine ⟨List.append_ne_nil_of_left_ne_nil ih.1 _, ?_⟩
        rw [List.head?_append_of_ne_nil _ ih.1]
        exact ih.2
    · exact ih

/-- When every successful outcome's sub-path runs from the state's current
node to its chosen destination (what `nx.shortest_path(G, current_node,
next_dest)` guarantees), the assembled path always ends at the current
node. -/
lemma loopIter_path_getLast (G : RouteGraph) (target : ℚ) (oracle : ℕ → IterOutcome)
    (orig : Node)
    (hvalid : ∀ k d p, oracle k = IterOutcome.success d p →
      p.head? = some (loopIter G target oracle orig k).current ∧ p.getLast? = some d) :
    ∀ n, (loopIter G target oracle orig n).path.getLast? =
      some (loopIter G target oracle orig n).current := by
  intro n
  induction n with
  | zero => rfl
  | succ k ih =>
    rw [loopIter_succ]
    split
    · cases ho : oracle k with
      | fail => exact ih
      | success d p =>
        obtain ⟨hh, hl⟩ := hvalid k d p ho
        cases p with
        | nil => exact absurd hh (by simp)
        | cons x t =>
          have hx : x = (loopIter G target oracle orig k).current := Option.some.inj hh
          cases t with
          | nil =>
            have hxd : x = d := Option.some.inj hl
            simp only [loopStep, List.tail_cons, List.append_nil]
            rw [ih, ← hx, hxd]
          | cons y t2 =>
            simp only [loopStep, List.tail_cons]
            rw [List.getLast?_append_of_ne_nil _ (List.cons_ne_nil y t2)]
            rw [List.getLast?_cons_cons] at hl
            exact hl
    · exact ih

/-- The code-side sum over consecutive edges equals the spec-side
zip-with-successor sum, for every path. -/
lemma routeLength_eq_specPathWeight (G : RouteGraph) :
    ∀ p, routeLength G p = specPathWeight G p
  | [] => by simp [routeLength, specPathWeight]
  | [a] => by simp [routeLength, specPathWeight]
  | a :: b :: rest => by
    rw [show routeLength G (a :: b :: rest) = G.length a b + routeLength G (b :: rest) from rfl]
    rw [routeLength_eq_specPathWeight G (b :: rest)]
    simp [specPathWeight]

/-
  Part 6: claims about the Route Synthesis Engine.
-/

/-- C2 counterexample: the loop need not terminate. With the graph whose
edges all have length 1, origin 5, target 100, and every iteration failing
(`nx.shortest_path` raising, swallowed by the bare `except`), the guard
`accumulated_length < 80 and waypoints < 15` stays true forever, because a
failed iteration advances neither quantity; no number of iterations makes
the `while` loop of src/app.py line 335 exit. -/
theorem synth_loop_nontermination :
    ¬ ∃ n, ¬ loopGuard 100
      (loopIter ⟨fun _ _ => 1⟩ 100 (fun _ => IterOutcome.fail) 5 n) := by
  rintro ⟨n, hn⟩
  rw [loopIter_fail_const] at hn
  exact hn ⟨by norm_num [initState], by norm_num [initState, maxWaypoints]⟩

/-- C2 (amended): over every graph and every outcome sequence the loop
performs at most `maxWaypoints = 15` successful extension iterations; and
when every iteration succeeds the guard is false after at most 15
iterations. Termination is NOT guaranteed in general: failed iterations do
not advance the waypoint counter (see the counterexample). -/
theorem synth_loop_waypoint_bound (G : RouteGraph) (target : ℚ) (oracle : ℕ → IterOutcome)
    (orig : Node) :
    (∀ n, (loopIter G target oracle orig n).waypoints ≤ maxWaypoints) ∧
    ((∀ k, oracle k ≠ IterOutcome.fail) →
      ¬ loopGuard target (loopIter G target oracle orig maxWaypoints)) := by
  refine ⟨loopIter_waypoints_le G target oracle orig, ?_⟩
  intro hsucc
  rcases loopIter_waypoints_eq_or_exit G target oracle orig hsucc maxWaypoints with hw | hx
  · intro hg
    have hlt := hg.2
    rw [hw] at hlt
    exact lt_irrefl maxWaypoints hlt
  · exact hx

/-- C2 witness: a concrete all-successful run (every iteration extends by
the edge 0-1 of length 1) respects the waypoint bound and has exited by
iteration 15. -/
theorem synth_loop_waypoint_bound_witness :
    (∀ n, (loopIter ⟨fun _ _ => 1⟩ 1000 (fun _ => IterOutcome.success 1 [0, 1]) 0 n).waypoints
        ≤ maxWaypoints) ∧
    ¬ loopGuard 1000
      (loopIter ⟨fun _ _ => 1⟩ 1000 (fun _ => IterOutcome.success 1 [0, 1]) 0 maxWaypoints) :=
  ⟨(synth_loop_waypoint_bound ⟨fun _ _ => 1⟩ 1000 (fun _ => IterOutcome.success 1 [0, 1]) 0).1,
    (synth_loop_waypoint_bound ⟨fun _ _ => 1⟩ 1000 (fun _ => IterOutcome.success 1 [0, 1]) 0).2
      (fun k => by simp)⟩

/-- C3: whenever the closing shortest path from the final current node back
to the origin exists (a non-empty node list from the current node to the
origin, appended at src/app.py lines 359-360), and every successful
sub-path really ran from the then-current node to its destination, the
assembled route is a closed walk: it starts and ends at the depot origin. -/
theorem synth_route_closed_loop (G : RouteGraph) (target : ℚ) (oracle : ℕ → IterOutcome)
    (orig : Node) (n : ℕ) (home_path : List Node)
    (hvalid : ∀ k d p, oracle k = IterOutcome.success d p →
      p.head? = some (loopIter G target oracle orig k).current ∧ p.getLast? = some d)
    (hh : home_path.head? = some (loopIter G target oracle orig n).current)
    (hl : home_path.getLast? = some orig) :
    (closeLoop (loopIter G target oracle orig n) (some home_path)).head? = some orig ∧
    (closeLoop (loopIter G target oracle orig n) (some home_path)).getLast? = some orig := by
  obtain ⟨hne, hhead⟩ := loopIter_path_head G target oracle orig n
  constructor
  · rw [closeLoop, List.head?_append_of_ne_nil _ hne]
    exact hhead
  · rw [closeLoop]
    cases home_path with
    | nil => exact absurd hh (by simp)
    | cons x t =>
      have hx : x = (loopIter G target oracle orig n).current := Option.some.inj hh
      cases t with
      | nil =>
        have hxo : x = orig := Option.some.inj hl
        simp only [List.tail_cons, List.append_nil]
        rw [loopIter_path_getLast G target oracle orig hvalid n, ← hx, hxo]
      | cons y t2 =>
        simp only [List.tail_cons]
        rw [List.getLast?_append_of_ne_nil _ (List.cons_ne_nil y t2)]
        rw [List.getLast?_cons_cons] at hl
        exact hl

/-- C3 witness: with target 0 the loop exits immediately, the current node
is still the origin 0, the closing path is the trivial `[0]`, and the
resulting route `[0]` starts and ends at the origin. -/
theorem synth_route_closed_loop_witness :
    (closeLoop (loopIter ⟨fun _ _ => 1⟩ 0 (fun _ => IterOutcome.fail) 0 0)
        (some [0])).head? = some 0 ∧
    (closeLoop (loopIter ⟨fun _ _ => 1⟩ 0 (fun _ => IterOutcome.fail) 0 0)
        (some [0])).getLast? = some 0 :=
  synth_route_closed_loop ⟨fun _ _ => 1⟩ 0 (fun _ => IterOutcome.fail) 0 0 [0]
    (fun _ _ _ h => IterOutcome.noConfusion h) rfl rfl

/-- C4: the reported metrics are computed from
`total_length_m = route_to_gdf(full path)["length"].sum()`, which equals
the spec-side sum of consecutive-node edge weights along the full assembled
path; `dist` is that total in miles and `time` that total at 13.4 m/s. -/
theorem synth_total_distance (G : RouteGraph) (nodeCoords : Node → ℚ × ℚ) (orig : Node)
    (target : ℚ) (oracle : ℕ → IterOutcome) (fuel : ℕ) (home : Option (List Node)) :
    routeLength G (closeLoop (loopIter G target oracle orig fuel) home)
      = specPathWeight G (closeLoop (loopIter G target oracle orig fuel) home) ∧
    (synthesizeRoute G nodeCoords orig target oracle fuel home).2.dist
      = specPathWeight G (closeLoop (loopIter G target oracle orig fuel) home)
          * (621371 / 1000000000) ∧
    (synthesizeRoute G nodeCoords orig target oracle fuel home).2.time
      = specPathWeight G (closeLoop (loopIter G target oracle orig fuel) home) / (67/5) / 60 := by
  refine ⟨routeLength_eq_specPathWeight G _, ?_, ?_⟩ <;>
    simp [synthesizeRoute, routeLength_eq_specPathWeight G _]

/-- C5 (the code contradicts the claim): on a graph containing only the
origin node, every iteration of the loop fails — `random.sample` can only
return the origin itself, `nx.shortest_path(G, orig, orig)` is the
single-node path `[orig]`, and `ox.routing.route_to_gdf` raises on a
route with no edge, swallowed by the bare `except` — so the loop state
never changes, the guard stays true for every iteration count, and the
`while` loop never terminates; the claimed immediate degenerate route is
never produced. Here with a 30-minute target (`target_distance_m =
30 * 60 * 13.4 = 24120`). -/
theorem synth_single_node_never_exits :
    ∀ n : ℕ,
      loopIter ⟨fun _ _ => 0⟩ 24120 (fun _ => IterOutcome.fail) 0 n = initState 0 ∧
      loopGuard 24120 (loopIter ⟨fun _ _ => 0⟩ 24120 (fun _ => IterOutcome.fail) 0 n) := by
  intro n
  refine ⟨loopIter_fail_const _ _ _ n, ?_⟩
  rw [loopIter_fail_const]
  exact ⟨by norm_num [initState], by norm_num [initState, maxWaypoints]⟩

/-- C8: the handler stores the synthesized route into the session slots
only at the very end of the `try` block; when the attempt fails the
`except` arm only reports the error, so the previously stored route and
metrics survive unchanged. -/
theorem route_handler_preserves_on_error (sess : SessionState) (msg : String) :
    (routeHandlerStep sess (Except.error msg)).route_coords = sess.route_coords ∧
    (routeHandlerStep sess (Except.error msg)).route_metrics = sess.route_metrics :=
  ⟨rfl, rfl⟩

/-- C10: for every run, the assembled path (with or without a closing leg,
after any number of iterations with any outcomes) is non-empty and starts
at the origin node: the path starts as `[orig]` and is only ever extended
at its end. -/
theorem synth_path_starts_at_origin (G : RouteGraph) (target : ℚ) (oracle : ℕ → IterOutcome)
    (orig : Node) (n : ℕ) (home : Option (List Node)) :
    closeLoop (loopIter G target oracle orig n) home ≠ [] ∧
    (closeLoop (loopIter G target oracle orig n) home).head? = some orig := by
  obtain ⟨hne, hhead⟩ := loopIter_path_head G target oracle orig n
  cases home with
  | none => exact ⟨hne, hhead⟩
  | some hp =>
    rw [closeLoop]
    exact ⟨List.append_ne_nil_of_left_ne_nil hne _,
      by rw [List.head?_append_of_ne_nil _ hne]; exact hhead⟩

end Adas
